import Mathlib

/-!
Verification of the buffer runtime core (`src/Buffer.cpp`) of the
Halide repository.

The C++ code is shallowly embedded: machine integers become `Nat`/`Int`
with explicit reductions modulo `2^w` where overflow can occur, pointers
become `Nat` addresses (`0` is the null pointer), fallible operations
return `Except BufferError`, and side effects (allocation, callback
invocation, releasing memory) are recorded as explicit event traces.
-/

namespace Halide

/-- The element type of a buffer: type code, bit width, and vector lane
count (`width`). Mirrors the `Type` struct used by `Buffer.cpp`; buffers
require `width = 1`. `bits` and `width` are nonnegative C ints, embedded
as `Nat`. -/
structure HType where
  code : Nat
  bits : Nat
  width : Nat
deriving Repr, DecidableEq

/-- `Type::bytes()`: bytes per element, `(bits + 7) / 8`. -/
def HType.bytes (t : HType) : Nat :=
  (t.bits + 7) / 8

/-- The raw `buffer_t` descriptor. `host` is a host address (`0` = null),
`dev` the opaque 64-bit device handle, `elem_size` the element size in
bytes. The four-slot `extent`/`stride`/`min` arrays are flattened into
named `Int` fields holding int32 values. -/
structure buffer_t where
  host : Nat
  dev : Nat
  elem_size : Nat
  host_dirty : Bool
  dev_dirty : Bool
  extent0 : Int
  extent1 : Int
  extent2 : Int
  extent3 : Int
  stride0 : Int
  stride1 : Int
  stride2 : Int
  stride3 : Int
  min0 : Int
  min1 : Int
  min2 : Int
  min3 : Int
deriving Repr, DecidableEq

/-- Array access `buf.extent[dim]` for an already-bounds-checked `dim`. -/
def buffer_t.extentAt (b : buffer_t) (dim : Nat) : Int :=
  match dim with
  | 0 => b.extent0
  | 1 => b.extent1
  | 2 => b.extent2
  | _ => b.extent3

/-- Array access `buf.stride[dim]` for an already-bounds-checked `dim`. -/
def buffer_t.strideAt (b : buffer_t) (dim : Nat) : Int :=
  match dim with
  | 0 => b.stride0
  | 1 => b.stride1
  | 2 => b.stride2
  | _ => b.stride3

/-- Array access `buf.min[dim]` for an already-bounds-checked `dim`. -/
def buffer_t.minAt (b : buffer_t) (dim : Nat) : Int :=
  match dim with
  | 0 => b.min0
  | 1 => b.min1
  | 2 => b.min2
  | _ => b.min3

/-- The device-sync provider (`JITCompiledModule` as used by
`Buffer.cpp`): three nullable function pointers, each taking the (always
null, hence omitted) execution context and a mutable pointer to the
descriptor. A callback is embedded as the transformation it applies to
the descriptor; `none` is a null function pointer. The header defining
this struct is not part of the inspected source; per the spec the three
bindings are optional and absent by default. -/
structure JITCompiledModule where
  copy_to_host : Option (buffer_t → buffer_t)
  copy_to_dev : Option (buffer_t → buffer_t)
  free_dev_buffer : Option (buffer_t → buffer_t)

/-- A provider with all three callbacks null: the default-constructed
`JITCompiledModule` of a buffer that no compiled module produced. -/
def JITCompiledModule.empty : JITCompiledModule :=
  ⟨none, none, none⟩

/-- The refcounted `BufferContents` object: the wrapped descriptor, the
element type, the owned allocation base (`none` when wrapping external
memory, matching the `NULL` sentinel), the debug name and the bound
provider. The intrusive reference count is modelled by the heap of
§`Heap` below rather than stored here. -/
structure BufferContents where
  buf : buffer_t
  type : HType
  allocation : Option Nat
  name : String
  source_module : JITCompiledModule

/-- Error conditions of the buffer core. `user_assert` failures carry
their condition; `internalOverflow` is the `internal_assert` inside
`checked_multiply_assert`; `nullDereference` marks the places where the
C++ dereferences a null `contents` pointer without any check. -/
inductive BufferError where
  | undefinedBuffer
  | badDimension
  | vectorType
  | internalOverflow
  | sizeTooLarge
  | outOfMemory
  | nullDereference
deriving Repr, DecidableEq

/-- Which of the three provider callbacks is being invoked. -/
inductive CallbackKind where
  | copyToHost
  | copyToDev
  | freeDev
deriving Repr, DecidableEq

/-- Observable side effects of the buffer core: a host allocation of
`bytes` zeroed bytes returning base address `base`; invoking a provider
callback with an execution context (always `none` = NULL) and the
descriptor passed to it; and releasing the owned host allocation at
`base`. -/
inductive Event where
  | alloc (bytes : Nat) (base : Nat)
  | callbackInvoked (kind : CallbackKind) (ctx : Option Nat) (buf : buffer_t)
  | freeHost (base : Nat)
deriving Repr, DecidableEq

/-- Is this event an invocation of the free-device callback? -/
def Event.isFreeDevInvoke : Event → Bool
  | Event.callbackInvoked CallbackKind.freeDev _ _ => true
  | _ => false

/-- Is this event a release of owned host memory? -/
def Event.isFreeHost : Event → Bool
  | Event.freeHost _ => true
  | _ => false

/-- `checked_multiply(a, c, result)` over an unsigned `w`-bit integer
type, returning `some result` on success and `none` on overflow. The
source: if `a == 0` the result is `0`; otherwise `t = a * c` (wrapping,
hence the reduction modulo `2^w`) and overflow is reported iff
`t / a != c`. -/
def checked_multiply (w a c : Nat) : Option Nat :=
  if a = 0 then
    some 0
  else
    let t := a * c % 2 ^ w
    if t / a ≠ c then none else some t

/-- Conversion of a C `int` to `size_t`, as happens when a dimension size
is passed to `checked_multiply_assert<size_t>`. -/
def toSizeT (x : Int) : Nat :=
  (x % (2 : Int) ^ 64).toNat

/-- `checked_multiply_assert<size_t>`: a checked multiply whose overflow
case fires `internal_assert`, embedded as the `internalOverflow` error. -/
def checked_multiply_assert (a c : Nat) : Except BufferError Nat :=
  match checked_multiply 64 a c with
  | some r => Except.ok r
  | none => Except.error BufferError.internalOverflow

/-- One step of the size accumulation in the owning constructor:
`if (d) checked_multiply_assert<size_t>(size, d, size);`. -/
def stepDim (size : Nat) (d : Int) : Except BufferError Nat :=
  if d = 0 then Except.ok size else checked_multiply_assert size (toSizeT d)

/-- Two's-complement wraparound of a C `int` (int32) multiplication
result, used where `Buffer.cpp` multiplies extents in `int` arithmetic. -/
def wrap32 (v : Int) : Int :=
  (v + 2 ^ 31) % 2 ^ 32 - 2 ^ 31

/-- The pointer walk `while ((size_t)(buf.host) & 0x1f) buf.host++;`:
advance the address to the next multiple of 32. -/
def alignTo32 (a : Nat) : Nat :=
  a + (32 - a % 32) % 32

/-- The owning `BufferContents` constructor
(`BufferContents(Type, int, int, int, int, uint8_t*, string)`).
`data` is the optional externally supplied pointer, `fresh` the unique
name substituted when `n` is empty, and `callocAddr` the address `calloc`
returns for this construction (`0` = allocation failure). Returns the
constructed contents together with the trace of allocation events, or
the error that aborted construction. -/
def BufferContents.create (t : HType) (x_size y_size z_size w_size : Int)
    (data : Option Nat) (n fresh : String) (callocAddr : Nat) :
    Except BufferError (BufferContents × List Event) := do
  if t.width ≠ 1 then throw BufferError.vectorType
  let elem_size := t.bytes
  let size1 ← stepDim 1 x_size
  let size2 ← stepDim size1 y_size
  let size3 ← stepDim size2 z_size
  let size4 ← stepDim size3 w_size
  let mkBuf : Nat → buffer_t := fun host =>
    { host := host
      dev := 0
      elem_size := elem_size
      host_dirty := false
      dev_dirty := false
      extent0 := x_size
      extent1 := y_size
      extent2 := z_size
      extent3 := w_size
      stride0 := 1
      stride1 := x_size
      stride2 := wrap32 (x_size * y_size)
      stride3 := wrap32 (wrap32 (x_size * y_size) * z_size)
      min0 := 0
      min1 := 0
      min2 := 0
      min3 := 0 }
  let bufName := if n = "" then fresh else n
  match data with
  | none => do
    let bytes ← checked_multiply_assert size4 elem_size
    if bytes < 2 ^ 31 - 1 then
      let total := bytes + 32
      if callocAddr = 0 then
        throw BufferError.outOfMemory
      else
        let host := alignTo32 callocAddr
        pure ({ buf := mkBuf host
                type := t
                allocation := some callocAddr
                name := bufName
                source_module := JITCompiledModule.empty },
              [Event.alloc total callocAddr])
    else
      throw BufferError.sizeTooLarge
  | some p =>
    pure ({ buf := mkBuf p
            type := t
            allocation := none
            name := bufName
            source_module := JITCompiledModule.empty },
          [])

/-- The wrapping `BufferContents` constructor
(`BufferContents(Type, const buffer_t*, string)`): the descriptor is
copied verbatim, no allocation is owned. -/
def BufferContents.wrap (t : HType) (b : buffer_t) (n fresh : String) :
    Except BufferError (BufferContents × List Event) :=
  if t.width ≠ 1 then Except.error BufferError.vectorType
  else
    Except.ok ({ buf := b
                 type := t
                 allocation := none
                 name := if n = "" then fresh else n
                 source_module := JITCompiledModule.empty },
               [])

/-- `destroy<BufferContents>`: the teardown run when the last handle
releases the contents. Yields the trace of observable effects: if the
free-device callback is bound it is invoked (null execution context,
descriptor passed); then `free(allocation)` — a `freeHost` event exactly
when an allocation is owned (`free(NULL)` is a no-op). -/
def destroy (c : BufferContents) : List Event :=
  (match c.source_module.free_dev_buffer with
   | some _ => [Event.callbackInvoked CallbackKind.freeDev none c.buf]
   | none => []) ++
  (match c.allocation with
   | some a => [Event.freeHost a]
   | none => [])

/-! ## The Buffer handle's public operations

A `Buffer` handle holds a possibly-null `IntrusivePtr` to the shared
contents, embedded as `Option BufferContents` (the value currently
stored behind that pointer). Each operation mirrors one member function
of `Buffer`: where the source begins with
`user_assert(defined()) << "Buffer is undefined"` the model returns
`BufferError.undefinedBuffer` on a null handle; where the source
dereferences `contents.ptr` with no such check, the model returns
`BufferError.nullDereference`, the crash that dereference is. -/

/-- `Buffer::defined()`. -/
def Buffer.defined (contents : Option BufferContents) : Bool :=
  contents.isSome

/-- `Buffer::host_ptr()`. -/
def Buffer.host_ptr (contents : Option BufferContents) : Except BufferError Nat :=
  match contents with
  | none => Except.error BufferError.undefinedBuffer
  | some c => Except.ok c.buf.host

/-- `Buffer::raw_buffer()`: the descriptor behind the handle. -/
def Buffer.raw_buffer (contents : Option BufferContents) : Except BufferError buffer_t :=
  match contents with
  | none => Except.error BufferError.undefinedBuffer
  | some c => Except.ok c.buf

/-- `Buffer::device_handle()`. -/
def Buffer.device_handle (contents : Option BufferContents) : Except BufferError Nat :=
  match contents with
  | none => Except.error BufferError.undefinedBuffer
  | some c => Except.ok c.buf.dev

/-- `Buffer::host_dirty()`. -/
def Buffer.host_dirty (contents : Option BufferContents) : Except BufferError Bool :=
  match contents with
  | none => Except.error BufferError.undefinedBuffer
  | some c => Except.ok c.buf.host_dirty

/-- `Buffer::set_host_dirty(bool)`: returns the updated contents. -/
def Buffer.set_host_dirty (contents : Option BufferContents) (dirty : Bool) :
    Except BufferError BufferContents :=
  match contents with
  | none => Except.error BufferError.undefinedBuffer
  | some c => Except.ok { c with buf := { c.buf with host_dirty := dirty } }

/-- `Buffer::device_dirty()`. -/
def Buffer.device_dirty (contents : Option BufferContents) : Except BufferError Bool :=
  match contents with
  | none => Except.error BufferError.undefinedBuffer
  | some c => Except.ok c.buf.dev_dirty

/-- `Buffer::set_device_dirty(bool)`: returns the updated contents. The
source's body is `contents.ptr->buf.host_dirty = dirty;` — it writes the
host-dirty flag, and that is embedded as written. -/
def Buffer.set_device_dirty (contents : Option BufferContents) (dirty : Bool) :
    Except BufferError BufferContents :=
  match contents with
  | none => Except.error BufferError.undefinedBuffer
  | some c => Except.ok { c with buf := { c.buf with host_dirty := dirty } }

/-- `Buffer::extent(int)`. -/
def Buffer.extent (contents : Option BufferContents) (dim : Int) : Except BufferError Int :=
  match contents with
  | none => Except.error BufferError.undefinedBuffer
  | some c =>
    if 0 ≤ dim ∧ dim < 4 then Except.ok (c.buf.extentAt dim.toNat)
    else Except.error BufferError.badDimension

/-- `Buffer::stride(int)`. -/
def Buffer.stride (contents : Option BufferContents) (dim : Int) : Except BufferError Int :=
  match contents with
  | none => Except.error BufferError.undefinedBuffer
  | some c =>
    if 0 ≤ dim ∧ dim < 4 then Except.ok (c.buf.strideAt dim.toNat)
    else Except.error BufferError.badDimension

/-- `Buffer::min(int)`. -/
def Buffer.min (contents : Option BufferContents) (dim : Int) : Except BufferError Int :=
  match contents with
  | none => Except.error BufferError.undefinedBuffer
  | some c =>
    if 0 ≤ dim ∧ dim < 4 then Except.ok (c.buf.minAt dim.toNat)
    else Except.error BufferError.badDimension

/-- `Buffer::dimensions()`: the index of the first zero extent, or 4.
The loop reads `extent(i)`, so the undefined-buffer check of `extent`
applies. -/
def Buffer.dimensions (contents : Option BufferContents) : Except BufferError Int := do
  if (← Buffer.extent contents 0) = 0 then return 0
  if (← Buffer.extent contents 1) = 0 then return 1
  if (← Buffer.extent contents 2) = 0 then return 2
  if (← Buffer.extent contents 3) = 0 then return 3
  return 4

/-- The four assignments of `Buffer::set_min`. -/
def buffer_t.withMin (b : buffer_t) (m0 m1 m2 m3 : Int) : buffer_t :=
  { b with min0 := m0, min1 := m1, min2 := m2, min3 := m3 }

/-- `Buffer::set_min(int, int, int, int)`: returns the updated contents. -/
def Buffer.set_min (contents : Option BufferContents) (m0 m1 m2 m3 : Int) :
    Except BufferError BufferContents :=
  match contents with
  | none => Except.error BufferError.undefinedBuffer
  | some c => Except.ok { c with buf := c.buf.withMin m0 m1 m2 m3 }

/-- `Buffer::type()`. -/
def Buffer.type (contents : Option BufferContents) : Except BufferError HType :=
  match contents with
  | none => Except.error BufferError.undefinedBuffer
  | some c => Except.ok c.type

/-- `Buffer::name()`: the source returns `contents.ptr->name` with no
defined-check, so a null handle is a null dereference. -/
def Buffer.name (contents : Option BufferContents) : Except BufferError String :=
  match contents with
  | none => Except.error BufferError.nullDereference
  | some c => Except.ok c.name

/-- `Buffer::set_source_module`: binds the device-sync provider. -/
def Buffer.set_source_module (contents : Option BufferContents)
    (m : JITCompiledModule) : Except BufferError BufferContents :=
  match contents with
  | none => Except.error BufferError.undefinedBuffer
  | some c => Except.ok { c with source_module := m }

/-- `Buffer::copy_to_host()`: reads the callback straight off
`contents.ptr` (null dereference on an undefined handle), then invokes
it if non-null, else does nothing. Returns the resulting contents and
the invocation trace. -/
def Buffer.copy_to_host (contents : Option BufferContents) :
    Except BufferError (BufferContents × List Event) :=
  match contents with
  | none => Except.error BufferError.nullDereference
  | some c =>
    match c.source_module.copy_to_host with
    | none => Except.ok (c, [])
    | some f =>
      Except.ok ({ c with buf := f c.buf },
                 [Event.callbackInvoked CallbackKind.copyToHost none c.buf])

/-- `Buffer::copy_to_dev()`: same shape as `copy_to_host`. -/
def Buffer.copy_to_dev (contents : Option BufferContents) :
    Except BufferError (BufferContents × List Event) :=
  match contents with
  | none => Except.error BufferError.nullDereference
  | some c =>
    match c.source_module.copy_to_dev with
    | none => Except.ok (c, [])
    | some f =>
      Except.ok ({ c with buf := f c.buf },
                 [Event.callbackInvoked CallbackKind.copyToDev none c.buf])

/-- `Buffer::free_dev_buffer()`: same shape as `copy_to_host`. -/
def Buffer.free_dev_buffer (contents : Option BufferContents) :
    Except BufferError (BufferContents × List Event) :=
  match contents with
  | none => Except.error BufferError.nullDereference
  | some c =>
    match c.source_module.free_dev_buffer with
    | none => Except.ok (c, [])
    | some f =>
      Except.ok ({ c with buf := f c.buf },
                 [Event.callbackInvoked CallbackKind.freeDev none c.buf])

/-! ## Handles, aliasing and identity

`same_as` compares the `contents` pointers themselves, not the values
behind them. That is modelled with an explicit heap: addresses are `Nat`,
`new` hands out the next fresh address, and a handle stores the address
of its contents (`none` = null handle). -/

/-- A `Buffer` handle as a pointer value: the address of its shared
`BufferContents`, or `none` for an undefined handle. Copying a handle
copies this address (`IntrusivePtr` copy). -/
structure BufferHandle where
  addr : Option Nat
deriving Repr, DecidableEq

/-- The heap of live `BufferContents` objects and the next fresh
address. -/
structure Heap where
  store : Nat → Option BufferContents
  next : Nat

/-- `new BufferContents(...)` followed by binding the handle: allocate
the contents at a fresh address, return the handle and the grown heap. -/
def Heap.newBuffer (h : Heap) (c : BufferContents) : BufferHandle × Heap :=
  (⟨some h.next⟩,
   { store := fun a => if a = h.next then some c else h.store a
     next := h.next + 1 })

/-- `Buffer::same_as(other)`: identity of the shared contents pointers. -/
def Buffer.same_as (b other : BufferHandle) : Bool :=
  b.addr == other.addr

/-- `Buffer::set_min` acting through a handle on the heap: the update is
performed in place on the shared contents object. -/
def Heap.set_min (h : Heap) (b : BufferHandle) (m0 m1 m2 m3 : Int) :
    Except BufferError Heap :=
  match b.addr with
  | none => Except.error BufferError.undefinedBuffer
  | some a =>
    Except.ok
      { h with
        store := fun a' =>
          if a' = a then
            (h.store a').map fun c => { c with buf := c.buf.withMin m0 m1 m2 m3 }
          else h.store a' }

/-- `Buffer::min` acting through a handle on the heap. -/
def Heap.minAt (h : Heap) (b : BufferHandle) (dim : Int) : Except BufferError Int :=
  match b.addr with
  | none => Except.error BufferError.undefinedBuffer
  | some a =>
    match h.store a with
    | none => Except.error BufferError.nullDereference
    | some c => Buffer.min (some c) dim

/-! ## Concrete sample values used by evaluation and witness theorems -/

/-- The factor a dimension size contributes to the element count of the
owning constructor: a zero size is skipped by the `if (x_size)` guards,
so it contributes the neutral factor 1. -/
def nz (d : Int) : Nat :=
  if d = 0 then 1 else d.toNat

/-- A unit-lane 8-bit element type (`bytes() = 1`). -/
def int8Type : HType :=
  ⟨0, 8, 1⟩

/-- A concrete descriptor for a 2×3 two-dimensional buffer. -/
def sampleBuf : buffer_t :=
  { host := 64
    dev := 7
    elem_size := 4
    host_dirty := false
    dev_dirty := false
    extent0 := 2
    extent1 := 3
    extent2 := 0
    extent3 := 0
    stride0 := 1
    stride1 := 2
    stride2 := 6
    stride3 := 6
    min0 := 0
    min1 := 0
    min2 := 0
    min3 := 0 }

/-- Concrete contents with no bound provider. -/
def sampleContents : BufferContents :=
  { buf := sampleBuf
    type := ⟨0, 32, 1⟩
    allocation := some 60
    name := "b0"
    source_module := JITCompiledModule.empty }

/-- Concrete contents with a bound free-device callback and a nonzero
device handle. -/
def deviceContents : BufferContents :=
  { sampleContents with
    source_module := ⟨none, none, some (fun b => { b with dev := 0 })⟩ }

/-! ## Helper lemmas -/

/-- `bind` on a successful `Except` computation. -/
lemma ok_bind {ε α β : Type} (a : α) (f : α → Except ε β) :
    (Except.ok a : Except ε α) >>= f = f a :=
  rfl

/-- `pure` of the `Except` monad is `Except.ok`. -/
lemma pure_eq_ok {ε α : Type} (a : α) : (pure a : Except ε α) = Except.ok a :=
  rfl

/-- `checked_multiply` succeeds with the exact product when the product
fits in `w` bits. -/
lemma checked_multiply_of_lt (w a c : Nat) (h : a * c < 2 ^ w) :
    checked_multiply w a c = some (a * c) := by
  by_cases ha : a = 0
  · simp [checked_multiply, ha]
  · have hmod : a * c % 2 ^ w = a * c := Nat.mod_eq_of_lt h
    have hdiv : a * c / a = c := Nat.mul_div_cancel_left c (Nat.pos_of_ne_zero ha)
    simp [checked_multiply, ha, hmod, hdiv]

/-- For nonzero `a`, the overflow test of `checked_multiply` is exact:
the truncated product divided by `a` recovers `c` iff no overflow
occurred. -/
lemma div_mod_eq_iff (w a c : Nat) (ha : a ≠ 0) :
    (a * c % 2 ^ w) / a = c ↔ a * c < 2 ^ w := by
  constructor
  · intro h
    by_contra hlt
    push_neg at hlt
    have hpos : 0 < 2 ^ w := pow_pos (by norm_num) w
    have h1 : a * c % 2 ^ w < 2 ^ w := Nat.mod_lt _ hpos
    have h2 : a * c % 2 ^ w < a * c := lt_of_lt_of_le h1 hlt
    have h3 : c ≤ a * c % 2 ^ w / a := le_of_eq h.symm
    have h4 : c * a ≤ a * c % 2 ^ w :=
      (Nat.le_div_iff_mul_le (Nat.pos_of_ne_zero ha)).mp h3
    rw [Nat.mul_comm] at h4
    omega
  · intro h
    rw [Nat.mod_eq_of_lt h, Nat.mul_div_cancel_left c (Nat.pos_of_ne_zero ha)]

/-- `checked_multiply_assert` succeeds with the exact product when the
product fits in 64 bits. -/
lemma checked_multiply_assert_of_lt (a c : Nat) (h : a * c < 2 ^ 64) :
    checked_multiply_assert a c = Except.ok (a * c) := by
  simp [checked_multiply_assert, checked_multiply_of_lt 64 a c h]

/-- A nonnegative dimension size contributes at least factor 1. -/
lemma nz_pos (d : Int) (h0 : 0 ≤ d) : 0 < nz d := by
  unfold nz
  by_cases h : d = 0
  · simp [h]
  · simp only [h, if_false]
    omega

/-! ## C4: checked multiplication -/

/-- C4: for unsigned integers `a`, `b` below `2^w`: `checked_multiply`
returns ok with result 0 when `a = 0`; otherwise it returns ok with
result `a*b` exactly when the product does not overflow `w` bits, and
reports overflow exactly when `(a*b mod 2^w) / a ≠ b`. -/
theorem checked_multiply_spec (w a b : Nat) (ha : a < 2 ^ w) (hb : b < 2 ^ w) :
    (a = 0 → checked_multiply w a b = some 0) ∧
    (checked_multiply w a b = some (a * b) ↔ a * b < 2 ^ w) ∧
    (checked_multiply w a b = none ↔ a ≠ 0 ∧ (a * b % 2 ^ w) / a ≠ b) := by
  refine ⟨fun h => by simp [checked_multiply, h], ?_, ?_⟩
  · constructor
    · intro h
      by_cases ha0 : a = 0
      · subst ha0
        simpa using lt_of_le_of_lt (Nat.zero_le b) hb
      · rcases Nat.lt_or_ge (a * b) (2 ^ w) with hlt | hge
        · exact hlt
        · exfalso
          have hne : (a * b % 2 ^ w) / a ≠ b := by
            intro hc
            have := (div_mod_eq_iff w a b ha0).mp hc
            omega
          simp [checked_multiply, ha0, hne] at h
    · exact checked_multiply_of_lt w a b
  · by_cases ha0 : a = 0
    · simp [checked_multiply, ha0]
    · by_cases hdiv : (a * b % 2 ^ w) / a = b
      · simp [checked_multiply, ha0, hdiv]
      · simp [checked_multiply, ha0, hdiv]

/-- Witness for C4 at `w = 64`, `a = 3`, `b = 5`. -/
theorem checked_multiply_spec_witness :
    ((3 : Nat) < 2 ^ 64 ∧ (5 : Nat) < 2 ^ 64) ∧
    ((3 = 0 → checked_multiply 64 3 5 = some 0) ∧
     (checked_multiply 64 3 5 = some (3 * 5) ↔ 3 * 5 < 2 ^ 64) ∧
     (checked_multiply 64 3 5 = none ↔ 3 ≠ 0 ∧ (3 * 5 % 2 ^ 64) / 3 ≠ 5)) :=
  ⟨⟨by norm_num, by norm_num⟩,
   checked_multiply_spec 64 3 5 (by norm_num) (by norm_num)⟩

/-! ## C2: set_device_dirty -/

/-- C2 (divergence of the code from the claim): starting from contents
whose device-dirty flag is `false`, `set_device_dirty(true)` leaves
`device_dirty()` at `false` — the source writes the host-dirty flag
instead, as `host_dirty() = true` afterwards shows. -/
theorem set_device_dirty_writes_host_flag :
    ∃ c', Buffer.set_device_dirty (some sampleContents) true = Except.ok c' ∧
      Buffer.device_dirty (some c') = Except.ok false ∧
      Buffer.host_dirty (some c') = Except.ok true :=
  ⟨_, rfl, rfl, rfl⟩

/-! ## C5: operations on an undefined handle -/

/-- C5 (divergence of the code from the claim): on an undefined handle,
`name()`, `copy_to_host()`, `copy_to_dev()` and `free_dev_buffer()`
dereference the null contents pointer without raising the
"undefined buffer" error, while the checked operations (`host_ptr`,
`dimensions`, `set_min`, ...) do raise it. -/
theorem undefined_handle_unchecked_ops :
    (Buffer.name none = Except.error BufferError.nullDereference ∧
     Buffer.copy_to_host none = Except.error BufferError.nullDereference ∧
     Buffer.copy_to_dev none = Except.error BufferError.nullDereference ∧
     Buffer.free_dev_buffer none = Except.error BufferError.nullDereference) ∧
    (Buffer.name none ≠ Except.error BufferError.undefinedBuffer) ∧
    (Buffer.host_ptr none = Except.error BufferError.undefinedBuffer ∧
     Buffer.device_handle none = Except.error BufferError.undefinedBuffer ∧
     Buffer.dimensions none = Except.error BufferError.undefinedBuffer ∧
     Buffer.extent none 0 = Except.error BufferError.undefinedBuffer ∧
     Buffer.stride none 0 = Except.error BufferError.undefinedBuffer ∧
     Buffer.min none 0 = Except.error BufferError.undefinedBuffer ∧
     Buffer.set_min none 0 0 0 0 = Except.error BufferError.undefinedBuffer ∧
     Buffer.host_dirty none = Except.error BufferError.undefinedBuffer ∧
     Buffer.set_host_dirty none true = Except.error BufferError.undefinedBuffer ∧
     Buffer.device_dirty none = Except.error BufferError.undefinedBuffer ∧
     Buffer.set_device_dirty none true = Except.error BufferError.undefinedBuffer ∧
     Buffer.type none = Except.error BufferError.undefinedBuffer) :=
  ⟨⟨rfl, rfl, rfl, rfl⟩, by simp [Buffer.name],
   rfl, rfl, rfl, rfl, rfl, rfl, rfl, rfl, rfl, rfl, rfl, rfl⟩

/-! ## C7: absent provider means silent no-op -/

/-- C7: on a defined buffer, each of `copy_to_host`, `copy_to_dev` and
`free_dev_buffer` is a silent no-op — no failure, no change to the
contents, no callback invocation — whenever the corresponding callback
of the bound provider is null (in particular whenever no provider was
ever bound, since the default provider has all three callbacks null). -/
theorem no_provider_noop (c : BufferContents) :
    (c.source_module.copy_to_host = none →
      Buffer.copy_to_host (some c) = Except.ok (c, [])) ∧
    (c.source_module.copy_to_dev = none →
      Buffer.copy_to_dev (some c) = Except.ok (c, [])) ∧
    (c.source_module.free_dev_buffer = none →
      Buffer.free_dev_buffer (some c) = Except.ok (c, [])) := by
  refine ⟨fun h => ?_, fun h => ?_, fun h => ?_⟩
  · simp [Buffer.copy_to_host, h]
  · simp [Buffer.copy_to_dev, h]
  · simp [Buffer.free_dev_buffer, h]

/-- Witness for C7 on contents with no bound provider. -/
theorem no_provider_noop_witness :
    Buffer.copy_to_host (some sampleContents) = Except.ok (sampleContents, []) ∧
    Buffer.copy_to_dev (some sampleContents) = Except.ok (sampleContents, []) ∧
    Buffer.free_dev_buffer (some sampleContents) = Except.ok (sampleContents, []) :=
  ⟨(no_provider_noop sampleContents).1 rfl,
   (no_provider_noop sampleContents).2.1 rfl,
   (no_provider_noop sampleContents).2.2 rfl⟩

/-! ## C3: teardown order -/

/-- C3: at teardown, when the free-device callback is bound and the
device handle is nonzero, the callback is invoked exactly once, with a
null execution context and the descriptor, strictly before the owned
host allocation (if any) is released: the invocation heads the trace,
no further invocation follows, and the host release (exactly when an
allocation is owned) comes after it. -/
theorem destroy_device_free_first (c : BufferContents)
    (hb : c.source_module.free_dev_buffer.isSome = true)
    (hd : c.buf.dev ≠ 0) :
    ∃ rest,
      destroy c = Event.callbackInvoked CallbackKind.freeDev none c.buf :: rest ∧
      (∀ e ∈ rest, e.isFreeDevInvoke = false) ∧
      (∀ base, c.allocation = some base → rest = [Event.freeHost base]) ∧
      (c.allocation = none → rest = []) := by
  obtain ⟨f, hf⟩ := Option.isSome_iff_exists.mp hb
  cases halloc : c.allocation with
  | none =>
    refine ⟨[], ?_, ?_, ?_, fun _ => rfl⟩
    · simp [destroy, hf, halloc]
    · intro e he
      simp at he
    · intro base hbase
      cases hbase
  | some a =>
    refine ⟨[Event.freeHost a], ?_, ?_, ?_, ?_⟩
    · simp [destroy, hf, halloc]
    · intro e he
      simp at he
      subst he
      rfl
    · intro base hbase
      cases hbase
      rfl
    · intro hnone
      cases hnone

/-- Witness for C3 on contents with a bound free-device callback, a
nonzero device handle and an owned allocation. -/
theorem destroy_device_free_first_witness :
    (deviceContents.source_module.free_dev_buffer.isSome = true ∧
     deviceContents.buf.dev ≠ 0) ∧
    (∃ rest,
      destroy deviceContents =
        Event.callbackInvoked CallbackKind.freeDev none deviceContents.buf :: rest ∧
      (∀ e ∈ rest, e.isFreeDevInvoke = false) ∧
      (∀ base, deviceContents.allocation = some base → rest = [Event.freeHost base]) ∧
      (deviceContents.allocation = none → rest = [])) :=
  ⟨⟨rfl, by decide⟩,
   destroy_device_free_first deviceContents rfl (by decide)⟩

/-! ## C10: the device handle is not consulted at teardown -/

/-- C10: at teardown, the bound free-device callback is invoked (exactly
once) whenever it is non-null, regardless of the device-handle value —
replacing the handle by any value `d`, including 0, leaves the
invocation count and the host-release part of the trace unchanged. -/
theorem destroy_ignores_device_handle (c : BufferContents) (d : Nat)
    (hb : c.source_module.free_dev_buffer.isSome = true) :
    (destroy c).countP Event.isFreeDevInvoke = 1 ∧
    (destroy { c with buf := { c.buf with dev := d } }).countP
        Event.isFreeDevInvoke = 1 ∧
    (destroy { c with buf := { c.buf with dev := d } }).filter Event.isFreeHost =
      (destroy c).filter Event.isFreeHost := by
  obtain ⟨f, hf⟩ := Option.isSome_iff_exists.mp hb
  cases halloc : c.allocation <;>
    simp [destroy, hf, halloc, Event.isFreeDevInvoke, Event.isFreeHost,
      List.countP_cons, List.countP_nil]

/-- Witness for C10: the free-device callback is invoked at teardown
even when the device handle is forced to 0. -/
theorem destroy_ignores_device_handle_witness :
    deviceContents.source_module.free_dev_buffer.isSome = true ∧
    ((destroy deviceContents).countP Event.isFreeDevInvoke = 1 ∧
     (destroy { deviceContents with
        buf := { deviceContents.buf with dev := 0 } }).countP
          Event.isFreeDevInvoke = 1 ∧
     (destroy { deviceContents with
        buf := { deviceContents.buf with dev := 0 } }).filter Event.isFreeHost =
       (destroy deviceContents).filter Event.isFreeHost) :=
  ⟨rfl, destroy_ignores_device_handle deviceContents 0 rfl⟩

/-! ## C8: wrapping never allocates and never frees host memory -/

/-- C8: wrapping an existing descriptor copies it verbatim, owns no
allocation, performs no host allocation (empty construction trace), and
teardown of contents that own no allocation never releases host
memory. -/
theorem wrap_never_allocates (t : HType) (b : buffer_t) (n fresh : String)
    (ht : t.width = 1) :
    (∃ c, BufferContents.wrap t b n fresh = Except.ok (c, []) ∧
      c.buf = b ∧ c.allocation = none ∧
      (∀ e ∈ destroy c, e.isFreeHost = false)) ∧
    (∀ c' : BufferContents, c'.allocation = none →
      ∀ e ∈ destroy c', e.isFreeHost = false) := by
  have noHostFree : ∀ c' : BufferContents, c'.allocation = none →
      ∀ e ∈ destroy c', e.isFreeHost = false := by
    intro c' h e he
    cases hf : c'.source_module.free_dev_buffer with
    | none =>
      simp [destroy, hf, h] at he
    | some f =>
      simp [destroy, hf, h] at he
      subst he
      rfl
  refine ⟨?_, noHostFree⟩
  refine ⟨⟨b, t, none, if n = "" then fresh else n, JITCompiledModule.empty⟩,
    ?_, rfl, rfl, noHostFree _ rfl⟩
  simp [BufferContents.wrap, ht]

/-- Witness for C8 wrapping `sampleBuf` with a populated host pointer
and device handle. -/
theorem wrap_never_allocates_witness :
    int8Type.width = 1 ∧
    ((∃ c, BufferContents.wrap int8Type sampleBuf "w" "f" = Except.ok (c, []) ∧
      c.buf = sampleBuf ∧ c.allocation = none ∧
      (∀ e ∈ destroy c, e.isFreeHost = false)) ∧
    (∀ c' : BufferContents, c'.allocation = none →
      ∀ e ∈ destroy c', e.isFreeHost = false)) :=
  ⟨rfl, wrap_never_allocates int8Type sampleBuf "w" "f" rfl⟩

/-! ## C6: same_as is identity of the shared contents -/

/-- C6: `same_as` compares identity of the shared contents: two
independently constructed buffers are never `same_as`; a handle and a
copy of it always are; and a `set_min` performed through one copy is
observable through the other. -/
theorem same_as_shared_identity (h : Heap) (c1 c2 : BufferContents)
    (m0 m1 m2 m3 : Int) :
    Buffer.same_as (Heap.newBuffer h c1).1
      (Heap.newBuffer (Heap.newBuffer h c1).2 c2).1 = false ∧
    Buffer.same_as (Heap.newBuffer h c1).1 ⟨(Heap.newBuffer h c1).1.addr⟩ = true ∧
    ∃ h3,
      Heap.set_min (Heap.newBuffer (Heap.newBuffer h c1).2 c2).2
        ⟨(Heap.newBuffer h c1).1.addr⟩ m0 m1 m2 m3 = Except.ok h3 ∧
      Heap.minAt h3 (Heap.newBuffer h c1).1 0 = Except.ok m0 ∧
      Heap.minAt h3 (Heap.newBuffer h c1).1 1 = Except.ok m1 ∧
      Heap.minAt h3 (Heap.newBuffer h c1).1 2 = Except.ok m2 ∧
      Heap.minAt h3 (Heap.newBuffer h c1).1 3 = Except.ok m3 := by
  refine ⟨?_, ?_, ?_⟩
  · simp [Buffer.same_as, Heap.newBuffer]
  · simp [Buffer.same_as, Heap.newBuffer]
  · refine ⟨_, rfl, ?_, ?_, ?_, ?_⟩ <;>
      simp [Heap.newBuffer, Heap.minAt, Heap.set_min, Buffer.min,
        buffer_t.withMin, buffer_t.minAt]

/-! ## C1: the owning constructor -/

/-- The aligned pointer is a multiple of 32. -/
lemma alignTo32_mod (a : Nat) : alignTo32 a % 32 = 0 := by
  unfold alignTo32
  omega

/-- Aligning a non-null pointer keeps it non-null. -/
lemma alignTo32_ne_zero (a : Nat) (h : a ≠ 0) : alignTo32 a ≠ 0 := by
  unfold alignTo32
  omega

/-- In-range `int` values survive the int32 wraparound unchanged. -/
lemma wrap32_eq (v : Int) (h0 : 0 ≤ v) (h1 : v < 2 ^ 31) : wrap32 v = v := by
  unfold wrap32
  have h2 : (v + 2 ^ 31) % 2 ^ 32 = v + 2 ^ 31 :=
    Int.emod_eq_of_lt (by omega) (by omega)
  omega

/-- A nonnegative size is bounded by its contributed factor. -/
lemma le_nz_cast (x : Int) (h0 : 0 ≤ x) : x ≤ (nz x : Int) := by
  unfold nz
  by_cases h : x = 0
  · simp [h]
  · simp [h, Int.toNat_of_nonneg h0]

/-- One size-accumulation step of the owning constructor, in the
regime where the running product fits in 64 bits. -/
lemma stepDim_ok (s : Nat) (d : Int) (h0 : 0 ≤ d) (h1 : d < 2 ^ 31)
    (hs : s * nz d < 2 ^ 64) :
    stepDim s d = Except.ok (s * nz d) := by
  by_cases hd : d = 0
  · simp [stepDim, hd, nz]
  · have htos : toSizeT d = d.toNat := by
      unfold toSizeT
      rw [Int.emod_eq_of_lt h0 (by omega)]
    have hnz : nz d = d.toNat := by simp [nz, hd]
    rw [stepDim, if_neg hd, htos, ← hnz]
    exact checked_multiply_assert_of_lt s (nz d) hs

/-- Evaluation of the owning constructor with no external pointer when
the element type has unit lanes and nonzero size and the product of the
nonzero sizes times the element size stays below `2^31 - 1`: it succeeds
and fills the descriptor exactly as the source's assignments say. -/
lemma create_ok (t : HType) (x y z w : Int) (n fresh : String) (base : Nat)
    (ht : t.width = 1) (hbytes : 1 ≤ t.bytes)
    (hx0 : 0 ≤ x) (hx1 : x < 2 ^ 31)
    (hy0 : 0 ≤ y) (hy1 : y < 2 ^ 31)
    (hz0 : 0 ≤ z) (hz1 : z < 2 ^ 31)
    (hw0 : 0 ≤ w) (hw1 : w < 2 ^ 31)
    (hprod : nz x * nz y * nz z * nz w * t.bytes < 2 ^ 31 - 1)
    (hbase : base ≠ 0) :
    BufferContents.create t x y z w none n fresh base =
      Except.ok
        ({ buf := { host := alignTo32 base, dev := 0, elem_size := t.bytes,
                    host_dirty := false, dev_dirty := false,
                    extent0 := x, extent1 := y, extent2 := z, extent3 := w,
                    stride0 := 1, stride1 := x,
                    stride2 := wrap32 (x * y),
                    stride3 := wrap32 (wrap32 (x * y) * z),
                    min0 := 0, min1 := 0, min2 := 0, min3 := 0 },
           type := t, allocation := some base,
           name := if n = "" then fresh else n,
           source_module := JITCompiledModule.empty },
         [Event.alloc (nz x * nz y * nz z * nz w * t.bytes + 32) base]) := by
  have px := nz_pos x hx0
  have py := nz_pos y hy0
  have pz := nz_pos z hz0
  have pw := nz_pos w hw0
  have hP : nz x * nz y * nz z * nz w < 2 ^ 31 - 1 :=
    lt_of_le_of_lt (Nat.le_mul_of_pos_right _ (by omega)) hprod
  have hxle : nz x ≤ nz x * nz y * nz z * nz w := by
    calc nz x = nz x * 1 * 1 * 1 := by ring
    _ ≤ nz x * nz y * nz z * nz w := by gcongr <;> omega
  have hxyle : nz x * nz y ≤ nz x * nz y * nz z * nz w := by
    calc nz x * nz y = nz x * nz y * 1 * 1 := by ring
    _ ≤ nz x * nz y * nz z * nz w := by gcongr <;> omega
  have hxyzle : nz x * nz y * nz z ≤ nz x * nz y * nz z * nz w := by
    calc nz x * nz y * nz z = nz x * nz y * nz z * 1 := by ring
    _ ≤ nz x * nz y * nz z * nz w := by gcongr <;> omega
  have hbig : (2 ^ 31 - 1 : Nat) < 2 ^ 64 := by norm_num
  have e1 : stepDim 1 x = Except.ok (nz x) := by
    simpa using stepDim_ok 1 x hx0 hx1 (by simp; omega)
  have e2 : stepDim (nz x) y = Except.ok (nz x * nz y) :=
    stepDim_ok _ y hy0 hy1 (by omega)
  have e3 : stepDim (nz x * nz y) z = Except.ok (nz x * nz y * nz z) :=
    stepDim_ok _ z hz0 hz1 (by omega)
  have e4 : stepDim (nz x * nz y * nz z) w =
      Except.ok (nz x * nz y * nz z * nz w) :=
    stepDim_ok _ w hw0 hw1 (by omega)
  have e5 : checked_multiply_assert (nz x * nz y * nz z * nz w) t.bytes =
      Except.ok (nz x * nz y * nz z * nz w * t.bytes) :=
    checked_multiply_assert_of_lt _ _ (by omega)
  rw [BufferContents.create]
  rw [if_neg (by simp [ht])]
  rw [e1, ok_bind, e2, ok_bind, e3, ok_bind, e4, ok_bind]
  show Except.bind (checked_multiply_assert _ t.bytes) _ = _
  rw [e5]
  show (if _ < 2 ^ 31 - 1 then _ else _) = _
  rw [if_pos hprod, if_neg hbase]
  rfl

/-- C1 as stated is refuted at element type `int8` (unit lanes, one byte
per element) and sizes `(65537, 65537, 0, 0)`: every size is
nonnegative, their product times `bytes()` is `0` — no overflow and
below `2^31 - 1` — yet construction aborts with the "total size exceeds
2^31 - 1" error, because the code multiplies only the *nonzero* sizes
and `65537 * 65537` bytes already breaches the limit. -/
theorem owning_construction_counterexample :
    ((0 : Int) ≤ 65537 ∧ (0 : Int) ≤ 65537 ∧ (0 : Int) ≤ 0 ∧ (0 : Int) ≤ 0) ∧
    int8Type.width = 1 ∧
    ((65537 * 65537 * 0 * 0 : Int) * (int8Type.bytes : Int) < 2 ^ 31 - 1) ∧
    BufferContents.create int8Type 65537 65537 0 0 none "" "b" 32 =
      Except.error BufferError.sizeTooLarge :=
  ⟨⟨by norm_num, by norm_num, le_refl 0, le_refl 0⟩, rfl,
   by norm_num [int8Type, HType.bytes], rfl⟩

/-- C1 (amended: the guard the code enforces is on the product of the
*nonzero* sizes times `bytes()`, and the element size must be at least
one byte): under that hypothesis an owning construction with no external
pointer succeeds, `dimensions()` counts the leading nonzero sizes,
`extent(i)` returns the sizes, the strides are `(1, x, x*y, x*y*z)`, all
`min(i)` are 0, and `host_ptr()` is non-null and 32-byte aligned. -/
theorem owning_construction_spec (t : HType) (x y z w : Int)
    (n fresh : String) (base : Nat)
    (ht : t.width = 1) (hbytes : 1 ≤ t.bytes)
    (hx0 : 0 ≤ x) (hx1 : x < 2 ^ 31)
    (hy0 : 0 ≤ y) (hy1 : y < 2 ^ 31)
    (hz0 : 0 ≤ z) (hz1 : z < 2 ^ 31)
    (hw0 : 0 ≤ w) (hw1 : w < 2 ^ 31)
    (hprod : nz x * nz y * nz z * nz w * t.bytes < 2 ^ 31 - 1)
    (hbase : base ≠ 0) :
    ∃ c evs,
      BufferContents.create t x y z w none n fresh base = Except.ok (c, evs) ∧
      Buffer.dimensions (some c) =
        Except.ok (if x = 0 then 0 else if y = 0 then 1 else if z = 0 then 2
                   else if w = 0 then 3 else 4) ∧
      (Buffer.extent (some c) 0 = Except.ok x ∧
       Buffer.extent (some c) 1 = Except.ok y ∧
       Buffer.extent (some c) 2 = Except.ok z ∧
       Buffer.extent (some c) 3 = Except.ok w) ∧
      (Buffer.stride (some c) 0 = Except.ok 1 ∧
       Buffer.stride (some c) 1 = Except.ok x ∧
       Buffer.stride (some c) 2 = Except.ok (x * y) ∧
       Buffer.stride (some c) 3 = Except.ok (x * y * z)) ∧
      (Buffer.min (some c) 0 = Except.ok 0 ∧
       Buffer.min (some c) 1 = Except.ok 0 ∧
       Buffer.min (some c) 2 = Except.ok 0 ∧
       Buffer.min (some c) 3 = Except.ok 0) ∧
      (Buffer.host_ptr (some c) = Except.ok c.buf.host ∧
       c.buf.host ≠ 0 ∧ c.buf.host % 32 = 0) := by
  have px := nz_pos x hx0
  have py := nz_pos y hy0
  have pz := nz_pos z hz0
  have pw := nz_pos w hw0
  have hP : nz x * nz y * nz z * nz w < 2 ^ 31 - 1 :=
    lt_of_le_of_lt (Nat.le_mul_of_pos_right _ (by omega)) hprod
  have hxyle : nz x * nz y ≤ nz x * nz y * nz z * nz w := by
    calc nz x * nz y = nz x * nz y * 1 * 1 := by ring
    _ ≤ nz x * nz y * nz z * nz w := by gcongr <;> omega
  have hxyzle : nz x * nz y * nz z ≤ nz x * nz y * nz z * nz w := by
    calc nz x * nz y * nz z = nz x * nz y * nz z * 1 := by ring
    _ ≤ nz x * nz y * nz z * nz w := by gcongr <;> omega
  have hxyI : x * y ≤ ((nz x * nz y : Nat) : Int) := by
    push_cast
    exact mul_le_mul (le_nz_cast x hx0) (le_nz_cast y hy0) hy0 (by positivity)
  have hxyzI : x * y * z ≤ ((nz x * nz y * nz z : Nat) : Int) := by
    push_cast
    exact mul_le_mul
      (le_trans hxyI (by push_cast; rfl)) (le_nz_cast z hz0) hz0 (by positivity)
  have hxy_lt : x * y < 2 ^ 31 := by
    have : ((nz x * nz y : Nat) : Int) < 2 ^ 31 := by
      have : nz x * nz y < 2 ^ 31 := by omega
      exact_mod_cast this
    omega
  have hxyz_lt : x * y * z < 2 ^ 31 := by
    have : ((nz x * nz y * nz z : Nat) : Int) < 2 ^ 31 := by
      have : nz x * nz y * nz z < 2 ^ 31 := by omega
      exact_mod_cast this
    omega
  have wxy : wrap32 (x * y) = x * y :=
    wrap32_eq _ (mul_nonneg hx0 hy0) hxy_lt
  have wxyz : wrap32 (wrap32 (x * y) * z) = x * y * z := by
    rw [wxy]
    exact wrap32_eq _ (mul_nonneg (mul_nonneg hx0 hy0) hz0) hxyz_lt
  refine ⟨_, _, create_ok t x y z w n fresh base ht hbytes hx0 hx1 hy0 hy1
    hz0 hz1 hw0 hw1 hprod hbase, ?_, ?_, ?_, ?_, ?_⟩
  · simp only [Buffer.dimensions, Buffer.extent, buffer_t.extentAt]
    by_cases hx : x = 0 <;> by_cases hy : y = 0 <;> by_cases hz : z = 0 <;>
      by_cases hw : w = 0 <;>
      simp [hx, hy, hz, hw, ok_bind, pure_eq_ok]
  · refine ⟨?_, ?_, ?_, ?_⟩ <;> simp [Buffer.extent, buffer_t.extentAt]
  · have wxyz2 : wrap32 (x * y * z) = x * y * z :=
      wrap32_eq _ (mul_nonneg (mul_nonneg hx0 hy0) hz0) hxyz_lt
    refine ⟨?_, ?_, ?_, ?_⟩ <;>
      simp [Buffer.stride, buffer_t.strideAt, wxy, wxyz, wxyz2]
  · refine ⟨?_, ?_, ?_, ?_⟩ <;> simp [Buffer.min, buffer_t.minAt]
  · exact ⟨rfl, alignTo32_ne_zero base hbase, alignTo32_mod base⟩

/-- Witness for the amended C1: an `int8`, 2×3 owning buffer allocated
at base address 32. -/
theorem owning_construction_spec_witness :
    (int8Type.width = 1 ∧ 1 ≤ int8Type.bytes ∧
     nz 2 * nz 3 * nz 0 * nz 0 * int8Type.bytes < 2 ^ 31 - 1 ∧ (32 : Nat) ≠ 0) ∧
    (∃ c evs,
      BufferContents.create int8Type 2 3 0 0 none "" "b" 32 = Except.ok (c, evs) ∧
      Buffer.dimensions (some c) =
        Except.ok (if (2 : Int) = 0 then 0 else if (3 : Int) = 0 then 1
                   else if (0 : Int) = 0 then 2
                   else if (0 : Int) = 0 then 3 else 4) ∧
      (Buffer.extent (some c) 0 = Except.ok 2 ∧
       Buffer.extent (some c) 1 = Except.ok 3 ∧
       Buffer.extent (some c) 2 = Except.ok 0 ∧
       Buffer.extent (some c) 3 = Except.ok 0) ∧
      (Buffer.stride (some c) 0 = Except.ok 1 ∧
       Buffer.stride (some c) 1 = Except.ok 2 ∧
       Buffer.stride (some c) 2 = Except.ok (2 * 3) ∧
       Buffer.stride (some c) 3 = Except.ok (2 * 3 * 0)) ∧
      (Buffer.min (some c) 0 = Except.ok 0 ∧
       Buffer.min (some c) 1 = Except.ok 0 ∧
       Buffer.min (some c) 2 = Except.ok 0 ∧
       Buffer.min (some c) 3 = Except.ok 0) ∧
      (Buffer.host_ptr (some c) = Except.ok c.buf.host ∧
       c.buf.host ≠ 0 ∧ c.buf.host % 32 = 0)) :=
  ⟨⟨rfl, by decide, by decide, by decide⟩,
   owning_construction_spec int8Type 2 3 0 0 "" "b" 32 rfl (by decide)
     (by decide) (by decide) (by decide) (by decide) (by decide) (by decide)
     (by decide) (by decide) (by decide) (by decide)⟩

end Halide
